import Mathlib

/-!
Verification of the uptime-monitor backend: a shallow embedding of the
VPN signal-fusion engine (`vpn_monitor.py`, `_combine_detection_results`),
the outage tracker (`monitoring.py`, `_check_outage_status`), the VPN
transition tracker (`monitoring.py`, `_handle_vpn_status_change`) and the
fallback HTTP throughput computation (`hybrid_speed_test.py`,
`_run_http_speed_test`).  Timestamps are modelled as rationals (seconds),
confidences as rationals, Python `None`-able fields as `Option`.
-/

namespace UptimeMonitor

/-- Python truthiness of an optional string: `None` and `""` are falsy. -/
def truthy : Option String → Bool
  | none => false
  | some s => !s.isEmpty

/-- Python `int(q)` on a rational: truncation toward zero. -/
def pyInt (q : ℚ) : ℤ :=
  if 0 ≤ q then ⌊q⌋ else ⌈q⌉

/-- One detection-method result dict as produced by the five evidence
sources of `VPNMonitor.detect_vpn_status` (keys `method`, `confidence`,
`provider`, `public_ip`). -/
structure Signal where
  method : String
  confidence : ℚ
  provider : Option String := none
  public_ip : Option String := none
deriving Repr, DecidableEq

/-- The `VPNStatus` dataclass of `vpn_monitor.py`. -/
structure VPNStatus where
  is_active : Bool
  provider : Option String
  server_location : Option String
  public_ip : Option String
  interface_name : Option String
  connection_time : Option ℚ
  detection_method : String
  confidence : ℚ
deriving Repr, DecidableEq

/-- Python's `max(results, key=lambda x: x.get('confidence', 0))` starting
from `x`: the fold keeps the earliest element of maximal confidence. -/
def firstMax (x : Signal) (xs : List Signal) : Signal :=
  xs.foldl (fun b s => if b.confidence < s.confidence then s else b) x

/-- The `best_result` of `_combine_detection_results` (dummy on `[]`,
where Python would raise). -/
def bestResult (results : List Signal) : Signal :=
  match results with
  | [] => { method := "unknown", confidence := 0 }
  | x :: xs => firstMax x xs

/-- The `avg_confidence` of `_combine_detection_results`. -/
def avgConfidence (results : List Signal) : ℚ :=
  (results.map (·.confidence)).sum / results.length

/-- The `public_ip` extraction loop of `_combine_detection_results`:
first result with `method == 'ip'` and a truthy `public_ip`. -/
def extractPublicIp : List Signal → Option String
  | [] => none
  | s :: rest =>
      if s.method == "ip" && truthy s.public_ip then s.public_ip
      else extractPublicIp rest

/-- Membership test for the `strong_indicators` list of
`_combine_detection_results`. -/
def isStrong (s : Signal) : Bool :=
  ((7 : ℚ)/10 ≤ s.confidence)
    || (s.method == "ip" && truthy s.provider)
    || (s.method == "interface" && truthy s.provider)

/-- The preliminary `(is_active, provider)` decision of
`_combine_detection_results` (before the two downgrade passes). -/
def prelimVerdict (results : List Signal) : Bool × Option String :=
  let best := bestResult results
  let strong := results.filter isStrong
  match strong with
  | s :: _ => (true, s.provider)
  | [] =>
      if (6 : ℚ)/10 < avgConfidence results then
        (true, if (5 : ℚ)/10 < best.confidence then best.provider else none)
      else (false, none)

/-- Downgrade pass A of `_combine_detection_results`: with a public IP
present and a preliminarily active verdict, an unmatched IP demands a
process/interface signal of confidence at least 0.8. -/
def passA (results : List Signal) (public_ip : Option String)
    (st : Bool × Option String) : Bool × Option String :=
  if truthy public_ip && st.1 then
    if results.any (fun s => s.method == "ip" && truthy s.provider) then st
    else if results.any (fun s =>
        (8 : ℚ)/10 ≤ s.confidence
          && (s.method == "process" || s.method == "interface")) then st
    else (false, none)
  else st

/-- Downgrade pass B of `_combine_detection_results`: with a public IP
present and a still-active verdict, demand an interface signal of
confidence at least 0.7 with a provider, or an IP signal with a provider. -/
def passB (results : List Signal) (public_ip : Option String)
    (st : Bool × Option String) : Bool × Option String :=
  if st.1 && truthy public_ip then
    if results.any (fun s =>
          s.method == "interface" && ((7 : ℚ)/10 ≤ s.confidence)
            && truthy s.provider)
        || results.any (fun s => s.method == "ip" && truthy s.provider) then st
    else (false, none)
  else st

/-- The full `_combine_detection_results` of `vpn_monitor.py`: `prev` is
`self.current_vpn_status`, `now` is `self.get_arizona_time()`. -/
def combineDetectionResults (results : List Signal)
    (prev : Option VPNStatus) (now : ℚ) : VPNStatus :=
  let best := bestResult results
  let public_ip := extractPublicIp results
  let st := passB results public_ip (passA results public_ip (prelimVerdict results))
  { is_active := st.1
    provider := st.2
    server_location := none
    public_ip := public_ip
    interface_name := none
    connection_time :=
      match prev with
      | some p => if st.1 then p.connection_time else some now
      | none => some now
    detection_method := best.method
    confidence := avgConfidence results }

/-- Scenario B's five-source signal batch: process at 0.9 with provider
`P`, ip at 0.3 with a public IP but no provider, the rest at confidence 0. -/
def scenarioB : List Signal :=
  [ { method := "process", confidence := (9 : ℚ)/10, provider := some "P" },
    { method := "interface", confidence := 0 },
    { method := "ip", confidence := (3 : ℚ)/10, public_ip := some "1.2.3.4" },
    { method := "dns", confidence := 0 },
    { method := "routing", confidence := 0 } ]

/-- One connectivity-test result dict as produced by `_ping_host` or
`_test_dns` in `monitoring.py` (the latency and error fields play no role
in outage tracking and are omitted). -/
structure ProbeResult where
  timestamp : ℚ
  is_connected : Bool
  target_host : String
  test_type : String
deriving Repr, DecidableEq

/-- The `OutageEvent` row of `models.py` (id omitted). -/
structure OutageEvent where
  start_time : ℚ
  end_time : Option ℚ := none
  duration_seconds : Option ℤ := none
  severity : String
  description : String
  is_resolved : Bool := false
deriving Repr, DecidableEq

/-- The `_check_outage_status` step of `monitoring.py`: given the current
open outage and one connectivity result, return the new open-outage
reference and the outage event closed by this step, if any.  A failed
result with no open outage opens one (severity `complete` for ping,
`partial` otherwise); a successful result closes an open unresolved
outage, setting its end time, resolved flag and truncated duration. -/
def checkOutageStatus (current : Option OutageEvent) (result : ProbeResult) :
    Option OutageEvent × Option OutageEvent :=
  if result.is_connected = false then
    match current with
    | none =>
        (some { start_time := result.timestamp
                severity := if result.test_type == "ping" then "complete" else "partial"
                description := "Connection failed to " ++ result.target_host
                  ++ " (" ++ result.test_type ++ ")" }, none)
    | some e => (some e, none)
  else
    match current with
    | some e =>
        if e.is_resolved = false then
          (none, some { e with
            end_time := some result.timestamp
            is_resolved := true
            duration_seconds := some (pyInt (result.timestamp - e.start_time)) })
        else (some e, none)
    | none => (none, none)

/-- Folding a probe stream through `_check_outage_status`, accumulating
the closed outage events (the open one, if any, lives in the state). -/
def runOutages : Option OutageEvent → List OutageEvent → List ProbeResult →
    Option OutageEvent × List OutageEvent
  | st, closed, [] => (st, closed)
  | st, closed, r :: rs =>
      let step := checkOutageStatus st r
      runOutages step.1 (closed ++ step.2.toList) rs

/-- Per-result effect of one `_ping_monitor` iteration on the outage
state: the result is saved and then passed to `_check_outage_status`. -/
def pingMonitorStep (current : Option OutageEvent) (result : ProbeResult) :
    Option OutageEvent × Option OutageEvent :=
  checkOutageStatus current result

/-- Per-result effect of one `_dns_monitor` iteration on the outage
state: `_dns_monitor` only calls `_save_connectivity_test` and never
`_check_outage_status`, so the outage state is untouched and no outage
event is ever produced from a DNS result. -/
def dnsMonitorStep (current : Option OutageEvent) (_result : ProbeResult) :
    Option OutageEvent × Option OutageEvent :=
  (current, none)

/-- The `VPNEvent` row of `models.py` (id omitted). -/
structure VPNEvent where
  timestamp : ℚ
  event_type : String
  provider : Option String
  public_ip : Option String
  confidence : ℚ
  duration_minutes : Option ℤ := none
deriving Repr, DecidableEq

/-- The `_handle_vpn_status_change` handler of `monitoring.py`: compares
the stored current status with the new one and emits at most one
connected/disconnected event.  The disconnected event carries the
previous status's provider, public IP and confidence, and a duration in
whole minutes computed from the previous connection time when known. -/
def handleVpnStatusChange : Option VPNStatus → VPNStatus → ℚ → Option VPNEvent
  | none, new_status, now =>
      if new_status.is_active then
        some { timestamp := now, event_type := "connected"
               provider := new_status.provider
               public_ip := new_status.public_ip
               confidence := new_status.confidence }
      else none
  | some cur, new_status, now =>
      if new_status.is_active && !cur.is_active then
        some { timestamp := now, event_type := "connected"
               provider := new_status.provider
               public_ip := new_status.public_ip
               confidence := new_status.confidence }
      else if !new_status.is_active && cur.is_active then
        some { timestamp := now, event_type := "disconnected"
               provider := cur.provider
               public_ip := cur.public_ip
               confidence := cur.confidence
               duration_minutes :=
                 match cur.connection_time with
                 | some ct => some (pyInt ((now - ct) / 60))
                 | none => none }
      else none

/-- Insertion into an ascending-sorted list of rationals. -/
def insertSorted (q : ℚ) : List ℚ → List ℚ
  | [] => [q]
  | x :: xs => if q ≤ x then q :: x :: xs else x :: insertSorted q xs

/-- Ascending sort, the model of Python's `list.sort()` on speeds. -/
def pythonSorted (l : List ℚ) : List ℚ := l.foldr insertSorted []

/-- Python's `round` to the nearest integer: ties go to the even side. -/
def roundHalfEven (q : ℚ) : ℤ :=
  if q - ⌊q⌋ < 1/2 then ⌊q⌋
  else if 1/2 < q - ⌊q⌋ then ⌊q⌋ + 1
  else if 2 ∣ ⌊q⌋ then ⌊q⌋ else ⌊q⌋ + 1

/-- Python's `round(q, 2)` on an exact rational value. -/
def pyRound2 (q : ℚ) : ℚ := (roundHalfEven (q * 100) : ℚ) / 100

/-- The median selection of `_run_http_speed_test`: element at index
`len // 2` of the sorted raw-speed list. -/
def medianSpeed (speeds : List ℚ) : ℚ :=
  (pythonSorted speeds).getD (speeds.length / 2) 0

/-- The reported `(download_mbps, upload_mbps)` of `_run_http_speed_test`
in `hybrid_speed_test.py`, given the per-file raw download speeds and the
configured calibration factor: sort, take the element at index
`len // 2`, multiply by the calibration factor, estimate upload as a
fifth of the calibrated download, and round both to two decimals. -/
def httpSpeedResult (speeds : List ℚ) (calibration_factor : ℚ) : ℚ × ℚ :=
  let sorted := pythonSorted speeds
  let median_speed := sorted.getD (speeds.length / 2) 0
  let calibrated_speed := median_speed * calibration_factor
  let upload_speed := calibrated_speed / 5
  (pyRound2 calibrated_speed, pyRound2 upload_speed)

/-- A failing ping probe against the default target. -/
def pingFail (t : ℚ) : ProbeResult := ⟨t, false, "8.8.8.8", "ping"⟩

/-- A succeeding ping probe against the default target. -/
def pingOk (t : ℚ) : ProbeResult := ⟨t, true, "8.8.8.8", "ping"⟩

/-- A failing DNS (name-resolution) probe. -/
def dnsFail (t : ℚ) : ProbeResult := ⟨t, false, "8.8.8.8", "dns"⟩

/-- A single process signal at confidence 0.9 with a provider, as in
Scenario A. -/
def processSignal09 : Signal :=
  { method := "process", confidence := (9 : ℚ)/10, provider := some "P" }

/-- A fully degraded signal: confidence 0, no provider, no public IP. -/
def zeroProcessSignal : Signal := { method := "process", confidence := 0 }

/-- A stored previous verdict that is inactive and carries connection
time 5. -/
def inactivePrev : VPNStatus :=
  { is_active := false, provider := none, server_location := none
    public_ip := none, interface_name := none, connection_time := some 5
    detection_method := "process", confidence := 0 }

/-- Well-formedness of a closed outage event: resolved, with an end time
no earlier than the start and a nonnegative floored duration. -/
def ClosedOutageOK (e : OutageEvent) : Prop :=
  e.is_resolved = true ∧ ∃ t, e.end_time = some t ∧ e.start_time ≤ t
    ∧ e.duration_seconds = some ⌊t - e.start_time⌋ ∧ (0 : ℤ) ≤ ⌊t - e.start_time⌋

/-- Well-formedness of an open outage event: unresolved, with no end
time and no duration. -/
def OpenOutageOK (e : OutageEvent) : Prop :=
  e.end_time = none ∧ e.is_resolved = false ∧ e.duration_seconds = none

/-- A fully degraded extra signal of a given method: confidence 0, no
provider, no public IP. -/
def zSig (m : String) : Signal := { method := m, confidence := 0 }

/-- A stored previous verdict that is active since time 60. -/
def activePrev : VPNStatus :=
  { is_active := true, provider := some "P", server_location := none
    public_ip := some "9.9.9.9", interface_name := none
    connection_time := some 60, detection_method := "process"
    confidence := (9 : ℚ)/10 }

/-- A new verdict that is inactive with no connection data. -/
def inactiveNew : VPNStatus :=
  { is_active := false, provider := none, server_location := none
    public_ip := none, interface_name := none, connection_time := none
    detection_method := "unknown", confidence := 0 }

end UptimeMonitor

namespace UptimeMonitor

/-- C1: on Scenario B's signal batch (process at 0.9 with provider `P`,
ip at 0.3 with a public IP but no provider, the rest at 0), downgrade
pass A is satisfied by the 0.9 process signal and leaves the verdict
active, but pass B finds neither a qualifying interface signal nor an IP
signal with a provider and forces the fused verdict inactive with no
provider, whatever the stored status and clock are. -/
theorem C1_scenarioB_pass_b_forces_inactive :
    ∀ (prev : Option VPNStatus) (now : ℚ),
      passA scenarioB (extractPublicIp scenarioB) (prelimVerdict scenarioB)
          = (true, some "P")
      ∧ passB scenarioB (extractPublicIp scenarioB) (true, some "P")
          = (false, none)
      ∧ (combineDetectionResults scenarioB prev now).is_active = false
      ∧ (combineDetectionResults scenarioB prev now).provider = none := by
  intro prev now
  refine ⟨by with_unfolding_all decide, by with_unfolding_all decide, ?_, ?_⟩ <;>
    with_unfolding_all rfl

/-- C2 counterexample: with a stored previous verdict that is inactive
and carries connection time 5, a cycle at time 100 whose signals make the
new verdict active reuses connection time 5 instead of setting it to the
cycle time 100 — the code only checks that a previous verdict exists, not
that it was active. -/
theorem C2_flip_reuses_stale_connection_time :
    (combineDetectionResults [processSignal09] (some inactivePrev) 100).is_active = true
    ∧ inactivePrev.is_active = false
    ∧ (combineDetectionResults [processSignal09] (some inactivePrev) 100).connection_time
        = some 5
    ∧ (combineDetectionResults [processSignal09] (some inactivePrev) 100).connection_time
        ≠ some 100 := by
  with_unfolding_all decide

/-- C2 amended: the fused verdict's connection time is reused from the
previous verdict whenever a previous verdict exists (active or not) and
the new verdict is active; it is set to the current cycle time when there
is no previous verdict or the new verdict is inactive. -/
theorem C2_connection_time_rule (results : List Signal) (p : VPNStatus) (now : ℚ) :
    ((combineDetectionResults results (some p) now).connection_time
        = if (combineDetectionResults results (some p) now).is_active
          then p.connection_time else some now)
    ∧ (combineDetectionResults results none now).connection_time = some now :=
  ⟨rfl, rfl⟩

/-- C3: a failed DNS probe never reaches the outage tracker — the DNS
monitor loop leaves the outage state unchanged and emits nothing for any
state and any timestamp — even though `_check_outage_status` itself,
given that same failed DNS result with no open outage, would open a new
outage event starting at the probe's timestamp with severity `partial`. -/
theorem C3_dns_failure_bypasses_outage_tracker :
    ∀ (st : Option OutageEvent) (t : ℚ),
      dnsMonitorStep st (dnsFail t) = (st, none)
      ∧ checkOutageStatus none (dnsFail t)
          = (some { start_time := t, severity := "partial"
                    description := "Connection failed to 8.8.8.8 (dns)" }, none) := by
  intro st t
  exact ⟨rfl, by with_unfolding_all rfl⟩

/-- C4: feeding a failure at `t1`, a failure at `t2` and a success at
`t3` into the outage tracker yields exactly one outage event, opened at
`t1` (the second failure is a no-op), closed at `t3` with the resolved
flag set and duration the floored difference `t3 - t1`. -/
theorem C4_fail_fail_success_single_outage (t1 t2 t3 : ℚ) (h : t1 ≤ t3) :
    runOutages none [] [pingFail t1, pingFail t2, pingOk t3]
      = (none, [{ start_time := t1, end_time := some t3
                  duration_seconds := some ⌊t3 - t1⌋
                  severity := "complete"
                  description := "Connection failed to 8.8.8.8 (ping)"
                  is_resolved := true }]) := by
  have h0 : (0 : ℚ) ≤ t3 - t1 := sub_nonneg.mpr h
  simp [runOutages, checkOutageStatus, pingFail, pingOk, pyInt, h0]

/-- Witness for C4 at `t1 = 0`, `t2 = 1`, `t3 = 10`. -/
theorem C4_fail_fail_success_single_outage_witness :
    (0 : ℚ) ≤ 10
    ∧ runOutages none [] [pingFail 0, pingFail 1, pingOk 10]
        = (none, [{ start_time := 0, end_time := some 10
                    duration_seconds := some ⌊(10 : ℚ) - 0⌋
                    severity := "complete"
                    description := "Connection failed to 8.8.8.8 (ping)"
                    is_resolved := true }]) :=
  ⟨by norm_num, C4_fail_fail_success_single_outage 0 1 10 (by norm_num)⟩

/-- C5: on an active-to-inactive flip the transition handler emits one
disconnected event carrying the previous verdict's provider, public IP
and confidence, with dwell duration the whole-minute difference from the
previous connection time when known (and none otherwise, per the match);
the truncation agrees with the floor whenever the connection time is not
in the future; and no event is emitted when the activity bit does not
change. -/
theorem C5_disconnect_uses_previous_verdict (cur new_status : VPNStatus) (now : ℚ) :
    (cur.is_active = true → new_status.is_active = false →
      handleVpnStatusChange (some cur) new_status now
        = some { timestamp := now, event_type := "disconnected"
                 provider := cur.provider, public_ip := cur.public_ip
                 confidence := cur.confidence
                 duration_minutes :=
                   match cur.connection_time with
                   | some ct => some (pyInt ((now - ct) / 60))
                   | none => none })
    ∧ (∀ ct : ℚ, ct ≤ now → pyInt ((now - ct) / 60) = ⌊(now - ct) / 60⌋)
    ∧ (cur.is_active = new_status.is_active →
        handleVpnStatusChange (some cur) new_status now = none) := by
  refine ⟨?_, ?_, ?_⟩
  · intro hc hn
    simp [handleVpnStatusChange, hc, hn]
  · intro ct hct
    have h0 : (0 : ℚ) ≤ (now - ct) / 60 :=
      div_nonneg (sub_nonneg.mpr hct) (by norm_num)
    simp [pyInt, h0]
  · intro hsame
    cases hn : new_status.is_active <;>
      simp [handleVpnStatusChange, hn, hsame.trans hn]

/-- Witness for C5: a concrete disconnect at time 180 from a verdict
active since time 60, and a no-change cycle emitting nothing. -/
theorem C5_disconnect_uses_previous_verdict_witness :
    (handleVpnStatusChange (some activePrev) inactiveNew 180
        = some { timestamp := 180, event_type := "disconnected"
                 provider := activePrev.provider
                 public_ip := activePrev.public_ip
                 confidence := activePrev.confidence
                 duration_minutes :=
                   match activePrev.connection_time with
                   | some ct => some (pyInt ((180 - ct) / 60))
                   | none => none })
    ∧ pyInt (((180 : ℚ) - 60) / 60) = ⌊((180 : ℚ) - 60) / 60⌋
    ∧ handleVpnStatusChange (some activePrev) activePrev 180 = none :=
  ⟨(C5_disconnect_uses_previous_verdict activePrev inactiveNew 180).1 rfl rfl,
   (C5_disconnect_uses_previous_verdict activePrev inactiveNew 180).2.1 60 (by norm_num),
   (C5_disconnect_uses_previous_verdict activePrev activePrev 180).2.2 rfl⟩

/-- C8 counterexample: fusion is not a function of the signal list alone
— the same single degraded signal fused at clock 0 and at clock 1 yields
verdicts differing in their connection time. -/
theorem C8_fusion_depends_on_clock :
    combineDetectionResults [zeroProcessSignal] none 0
      ≠ combineDetectionResults [zeroProcessSignal] none 1 := by
  with_unfolding_all decide

/-- C8 amended: every verdict field except the connection time is a
function of the ordered signal list alone — the stored previous verdict
and the clock reading can be varied arbitrarily without changing them. -/
theorem C8_determinism_except_connection_time (results : List Signal)
    (prev prev' : Option VPNStatus) (now now' : ℚ) :
    (combineDetectionResults results prev now).is_active
        = (combineDetectionResults results prev' now').is_active
    ∧ (combineDetectionResults results prev now).provider
        = (combineDetectionResults results prev' now').provider
    ∧ (combineDetectionResults results prev now).public_ip
        = (combineDetectionResults results prev' now').public_ip
    ∧ (combineDetectionResults results prev now).detection_method
        = (combineDetectionResults results prev' now').detection_method
    ∧ (combineDetectionResults results prev now).confidence
        = (combineDetectionResults results prev' now').confidence
    ∧ (combineDetectionResults results prev now).server_location
        = (combineDetectionResults results prev' now').server_location
    ∧ (combineDetectionResults results prev now).interface_name
        = (combineDetectionResults results prev' now').interface_name :=
  ⟨rfl, rfl, rfl, rfl, rfl, rfl, rfl⟩

/-- C9: with raw speeds 8, 12 and 10 Mbps and calibration factor 15 the
fallback HTTP strategy reports download 150 Mbps (median 10 times 15)
and upload 30 Mbps (a fifth of the calibrated download); in general the
reported pair is the rounded median-times-factor and its rounded fifth. -/
theorem C9_http_fallback_median_calibration :
    httpSpeedResult [8, 12, 10] 15 = (150, 30)
    ∧ medianSpeed [8, 12, 10] = 10
    ∧ ∀ (s : ℚ) (rest : List ℚ) (factor : ℚ),
        httpSpeedResult (s :: rest) factor
          = (pyRound2 (medianSpeed (s :: rest) * factor),
             pyRound2 (medianSpeed (s :: rest) * factor / 5)) :=
  ⟨by with_unfolding_all decide, by with_unfolding_all decide,
   fun _ _ _ => rfl⟩

/-- Outage-tracker preservation lemma: folding a timestamp-monotone probe
stream from a state whose open outage (if any) is well-formed and starts
no later than every remaining probe, with well-formed closed events
accumulated so far, yields only well-formed closed events and a
well-formed open outage. -/
theorem runOutages_invariant (probes : List ProbeResult) :
    ∀ (st : Option OutageEvent) (closed : List OutageEvent),
      probes.Pairwise (fun a b => a.timestamp ≤ b.timestamp) →
      (∀ e, st = some e → OpenOutageOK e ∧ ∀ r ∈ probes, e.start_time ≤ r.timestamp) →
      (∀ e ∈ closed, ClosedOutageOK e) →
      (∀ e ∈ (runOutages st closed probes).2, ClosedOutageOK e)
      ∧ (∀ e, (runOutages st closed probes).1 = some e → OpenOutageOK e) := by
  induction probes with
  | nil =>
      intro st closed _ hst hclosed
      exact ⟨hclosed, fun e he => (hst e he).1⟩
  | cons r rs ih =>
      intro st closed hmono hst hclosed
      rw [List.pairwise_cons] at hmono
      obtain ⟨hr, hrs⟩ := hmono
      cases hconn : r.is_connected with
      | false =>
          cases hstv : st with
          | none =>
              simp only [runOutages, checkOutageStatus, hconn, hstv, if_true,
                if_false, Bool.false_eq_true, Bool.true_eq_false, ite_false, ite_true,
                Option.toList, List.append_nil]
              refine ih _ closed hrs ?_ hclosed
              intro e he
              obtain rfl : _ = e := Option.some.inj he
              exact ⟨⟨rfl, rfl, rfl⟩, fun x hx => hr x hx⟩
          | some e0 =>
              simp only [runOutages, checkOutageStatus, hconn, hstv, if_true,
                if_false, Bool.false_eq_true, Bool.true_eq_false, ite_false, ite_true,
                Option.toList, List.append_nil]
              refine ih _ closed hrs ?_ hclosed
              intro e he
              obtain rfl : _ = e := Option.some.inj he
              exact ⟨(hst e0 hstv).1,
                fun x hx => (hst e0 hstv).2 x (List.mem_cons_of_mem r hx)⟩
      | true =>
          cases hstv : st with
          | none =>
              simp only [runOutages, checkOutageStatus, hconn, hstv, if_true,
                if_false, Bool.false_eq_true, Bool.true_eq_false, ite_false, ite_true,
                Option.toList, List.append_nil]
              refine ih _ closed hrs ?_ hclosed
              intro e he
              simp at he
          | some e0 =>
              have hopen := (hst e0 hstv).1
              have hstart : e0.start_time ≤ r.timestamp :=
                (hst e0 hstv).2 r (List.mem_cons_self r rs)
              have hsub : (0 : ℚ) ≤ r.timestamp - e0.start_time :=
                sub_nonneg.mpr hstart
              simp only [runOutages, checkOutageStatus, hconn, hstv,
                hopen.2.1, if_true, if_false, Bool.true_eq_false, Bool.false_eq_true, ite_false,
                ite_true, Option.toList]
              refine ih _ _ hrs ?_ ?_
              · intro e he
                simp at he
              intro e he
              rcases List.mem_append.mp he with hmem | hmem
              · exact hclosed e hmem
              · obtain rfl : e = _ := List.mem_singleton.mp hmem
                have hpy : pyInt (r.timestamp - e0.start_time)
                    = ⌊r.timestamp - e0.start_time⌋ := by
                  unfold pyInt
                  exact if_pos hsub
                refine ⟨rfl, r.timestamp, rfl, hstart, ?_, ?_⟩
                · exact congrArg some hpy
                · exact Int.floor_nonneg.mpr hsub

/-- C7: over every timestamp-monotone probe sequence, every outage event
the tracker has closed is resolved with an end time at or after its
start and a nonnegative floored duration, and the open outage (if any)
is unresolved with no end time — so an end time is present exactly when
the resolved flag is set. -/
theorem C7_outage_event_invariant (probes : List ProbeResult)
    (hmono : probes.Pairwise (fun a b => a.timestamp ≤ b.timestamp)) :
    (∀ e ∈ (runOutages none [] probes).2,
        e.is_resolved = true ∧ ∃ t, e.end_time = some t ∧ e.start_time ≤ t
          ∧ e.duration_seconds = some ⌊t - e.start_time⌋
          ∧ (0 : ℤ) ≤ ⌊t - e.start_time⌋)
    ∧ (∀ e, (runOutages none [] probes).1 = some e →
        e.end_time = none ∧ e.is_resolved = false) := by
  obtain ⟨h1, h2⟩ := runOutages_invariant probes none []
    hmono (by intro e he; simp at he) (by intro e he; simp at he)
  exact ⟨fun e he => h1 e he, fun e he => ⟨(h2 e he).1, (h2 e he).2.1⟩⟩

/-- Witness for C7 on the concrete monotone stream fail(0), success(3). -/
theorem C7_outage_event_invariant_witness :
    List.Pairwise (fun a b : ProbeResult => a.timestamp ≤ b.timestamp)
      [pingFail 0, pingOk 3]
    ∧ ((∀ e ∈ (runOutages none [] [pingFail 0, pingOk 3]).2,
          e.is_resolved = true ∧ ∃ t, e.end_time = some t ∧ e.start_time ≤ t
            ∧ e.duration_seconds = some ⌊t - e.start_time⌋
            ∧ (0 : ℤ) ≤ ⌊t - e.start_time⌋)
        ∧ (∀ e, (runOutages none [] [pingFail 0, pingOk 3]).1 = some e →
            e.end_time = none ∧ e.is_resolved = false)) := by
  have hp : List.Pairwise (fun a b : ProbeResult => a.timestamp ≤ b.timestamp)
      [pingFail 0, pingOk 3] := by
    with_unfolding_all decide
  exact ⟨hp, C7_outage_event_invariant _ hp⟩

/-- The public-IP extraction loop agrees with taking the first signal of
method `ip` with a truthy public IP and reading its public IP. -/
theorem extractPublicIp_eq_find (l : List Signal) :
    extractPublicIp l
      = ((l.find? (fun s => s.method == "ip" && truthy s.public_ip)).bind
          (·.public_ip)) := by
  induction l with
  | nil => rfl
  | cons s rest ih =>
      by_cases h : (s.method == "ip" && truthy s.public_ip) = true
      · simp [extractPublicIp, List.find?, h]
      · simp only [Bool.not_eq_true] at h
        simp [extractPublicIp, List.find?, h, ih]

/-- The fold modelling Python's `max` returns the earliest signal of
maximal confidence: the input splits around it, everything before is
strictly less confident and nothing anywhere is more confident. -/
theorem firstMax_earliest_max (xs : List Signal) :
    ∀ x : Signal, ∃ l₁ l₂, x :: xs = l₁ ++ firstMax x xs :: l₂
      ∧ (∀ y ∈ l₁, y.confidence < (firstMax x xs).confidence)
      ∧ (∀ y ∈ x :: xs, y.confidence ≤ (firstMax x xs).confidence) := by
  induction xs with
  | nil =>
      intro x
      exact ⟨[], [], rfl, by simp, by simp [firstMax]⟩
  | cons y ys ih =>
      intro x
      have hstep : firstMax x (y :: ys)
          = firstMax (if x.confidence < y.confidence then y else x) ys := rfl
      by_cases hxy : x.confidence < y.confidence
      · obtain ⟨l₁, l₂, hdec, hlt, hle⟩ := ih y
        rw [hstep, if_pos hxy] at *
        refine ⟨x :: l₁, l₂, by simpa using congrArg (x :: ·) hdec, ?_, ?_⟩
        · intro z hz
          rcases List.mem_cons.mp hz with rfl | hz
          · exact lt_of_lt_of_le hxy (hle y (List.mem_cons_self y ys))
          · exact hlt z hz
        · intro z hz
          rcases List.mem_cons.mp hz with rfl | hz
          · exact le_of_lt (lt_of_lt_of_le hxy (hle y (List.mem_cons_self y ys)))
          · exact hle z hz
      · have hyx : y.confidence ≤ x.confidence := le_of_not_lt hxy
        obtain ⟨l₁, l₂, hdec, hlt, hle⟩ := ih x
        rw [hstep, if_neg hxy] at *
        cases l₁ with
        | nil =>
            obtain ⟨hx, hys⟩ : x = firstMax x ys ∧ ys = l₂ :=
              by simpa using hdec
            refine ⟨[], y :: ys, by simpa using hx, by simp, ?_⟩
            intro z hz
            rcases List.mem_cons.mp hz with rfl | hz
            · exact hle z (List.mem_cons_self z ys)
            · rcases List.mem_cons.mp hz with rfl | hz
              · exact le_trans hyx (hle x (List.mem_cons_self x ys))
              · exact hle z (List.mem_cons_of_mem x hz)
        | cons a t =>
            obtain ⟨rfl, hys⟩ : x = a ∧ ys = t ++ firstMax x ys :: l₂ :=
              by simpa using hdec
            have hax : x.confidence < (firstMax x ys).confidence :=
              hlt x (List.mem_cons_self x t)
            refine ⟨x :: y :: t, l₂,
              by rw [List.cons_append, List.cons_append, ← hys], ?_, ?_⟩
            · intro z hz
              rcases List.mem_cons.mp hz with rfl | hz
              · exact hax
              · rcases List.mem_cons.mp hz with rfl | hz
                · exact lt_of_le_of_lt hyx hax
                · exact hlt z (List.mem_cons_of_mem x hz)
            · intro z hz
              rcases List.mem_cons.mp hz with rfl | hz
              · exact hle z (List.mem_cons_self z ys)
              · rcases List.mem_cons.mp hz with rfl | hz
                · exact le_trans hyx (le_of_lt hax)
                · exact hle z (List.mem_cons_of_mem x hz)

/-- C10: whatever the downgrade passes decide, the fused verdict's
confidence is the mean of all signal confidences, its detection method is
the method of the earliest maximal-confidence signal, and its public IP
is the public IP of the first ip-method signal carrying one. -/
theorem C10_passes_touch_only_activity_and_provider (s : Signal)
    (rest : List Signal) (prev : Option VPNStatus) (now : ℚ) :
    ((combineDetectionResults (s :: rest) prev now).confidence
        = ((s :: rest).map (·.confidence)).sum / ((s :: rest).length : ℚ))
    ∧ (∃ b l₁ l₂, s :: rest = l₁ ++ b :: l₂
        ∧ (∀ y ∈ l₁, y.confidence < b.confidence)
        ∧ (∀ y ∈ s :: rest, y.confidence ≤ b.confidence)
        ∧ (combineDetectionResults (s :: rest) prev now).detection_method = b.method)
    ∧ ((combineDetectionResults (s :: rest) prev now).public_ip
        = ((s :: rest).find? (fun x => x.method == "ip" && truthy x.public_ip)).bind
            (·.public_ip)) := by
  refine ⟨rfl, ?_, extractPublicIp_eq_find (s :: rest)⟩
  obtain ⟨l₁, l₂, hdec, hlt, hle⟩ := firstMax_earliest_max rest s
  exact ⟨firstMax s rest, l₁, l₂, hdec, hlt, hle, rfl⟩

/-- The activity bit produced by pass A, as a Boolean formula in the
input bit, the public IP and the two scanned conditions. -/
theorem passA_fst (results : List Signal) (pub : Option String)
    (st : Bool × Option String) :
    (passA results pub st).1
      = (st.1 && (!truthy pub
          || results.any (fun s => s.method == "ip" && truthy s.provider)
          || results.any (fun s =>
              (8 : ℚ)/10 ≤ s.confidence
                && (s.method == "process" || s.method == "interface")))) := by
  cases hp : truthy pub <;> cases hs : st.1 <;>
    cases h1 : results.any (fun s => s.method == "ip" && truthy s.provider) <;>
      cases h2 : results.any (fun s =>
          (8 : ℚ)/10 ≤ s.confidence
            && (s.method == "process" || s.method == "interface")) <;>
        simp [passA, hp, hs, h1, h2]

/-- The activity bit produced by pass B, as a Boolean formula in the
input bit, the public IP and the two scanned conditions. -/
theorem passB_fst (results : List Signal) (pub : Option String)
    (st : Bool × Option String) :
    (passB results pub st).1
      = (st.1 && (!truthy pub
          || results.any (fun s =>
              s.method == "interface" && ((7 : ℚ)/10 ≤ s.confidence)
                && truthy s.provider)
          || results.any (fun s => s.method == "ip" && truthy s.provider))) := by
  cases hp : truthy pub <;> cases hs : st.1 <;>
    cases h1 : results.any (fun s =>
        s.method == "interface" && ((7 : ℚ)/10 ≤ s.confidence)
          && truthy s.provider) <;>
      cases h2 : results.any (fun s => s.method == "ip" && truthy s.provider) <;>
        simp [passB, hp, hs, h1, h2]

/-- The preliminary activity bit: a strong indicator exists or the mean
confidence exceeds 0.6. -/
theorem prelimVerdict_fst (results : List Signal) :
    (prelimVerdict results).1
      = (!(results.filter isStrong).isEmpty
          || decide ((6 : ℚ)/10 < avgConfidence results)) := by
  unfold prelimVerdict
  cases hf : results.filter isStrong with
  | nil =>
      by_cases h : (6 : ℚ)/10 < avgConfidence results <;> simp [h]
  | cons a t => simp

/-- A fully degraded signal is never a strong indicator. -/
theorem isStrong_zSig (m : String) : isStrong (zSig m) = false := by
  simp [isStrong, zSig, truthy]

/-- Appending a fully degraded signal does not change the strong
indicator list. -/
theorem filter_strong_append_zSig (l : List Signal) (m : String) :
    (l ++ [zSig m]).filter isStrong = l.filter isStrong := by
  simp [List.filter_append, isStrong_zSig]

/-- Appending a fully degraded signal does not change the extracted
public IP. -/
theorem extractPublicIp_append_zSig (l : List Signal) (m : String) :
    extractPublicIp (l ++ [zSig m]) = extractPublicIp l := by
  induction l with
  | nil => simp [extractPublicIp, zSig, truthy]
  | cons s t ih =>
      by_cases h : (s.method == "ip" && truthy s.public_ip) = true <;>
        simp [extractPublicIp, h, ih]

/-- Appending a fully degraded signal does not satisfy the ip-provider
scan. -/
theorem any_ip_provider_append_zSig (l : List Signal) (m : String) :
    (l ++ [zSig m]).any (fun s => s.method == "ip" && truthy s.provider)
      = l.any (fun s => s.method == "ip" && truthy s.provider) := by
  simp [zSig, truthy]

/-- Appending a fully degraded signal does not satisfy the
strong-evidence scan of pass A. -/
theorem any_strong_evidence_append_zSig (l : List Signal) (m : String) :
    (l ++ [zSig m]).any (fun s =>
        (8 : ℚ)/10 ≤ s.confidence
          && (s.method == "process" || s.method == "interface"))
      = l.any (fun s =>
          (8 : ℚ)/10 ≤ s.confidence
            && (s.method == "process" || s.method == "interface")) := by
  have h8 : ¬ ((8 : ℚ)/10 ≤ (zSig m).confidence) := by
    simp [zSig]
  simp [h8]

/-- Appending a fully degraded signal does not satisfy the interface
scan of pass B. -/
theorem any_interface_append_zSig (l : List Signal) (m : String) :
    (l ++ [zSig m]).any (fun s =>
        s.method == "interface" && ((7 : ℚ)/10 ≤ s.confidence)
          && truthy s.provider)
      = l.any (fun s =>
          s.method == "interface" && ((7 : ℚ)/10 ≤ s.confidence)
            && truthy s.provider) := by
  simp [zSig, truthy]

/-- Appending a fully degraded signal can only lower the mean
confidence, provided all confidences are nonnegative. -/
theorem avgConfidence_append_zSig (l : List Signal) (m : String)
    (hne : l ≠ []) (hpos : ∀ s ∈ l, 0 ≤ s.confidence) :
    avgConfidence (l ++ [zSig m]) ≤ avgConfidence l := by
  unfold avgConfidence
  have hsum : ((l ++ [zSig m]).map (·.confidence)).sum
      = (l.map (·.confidence)).sum := by
    simp [zSig]
  have hlen : (((l ++ [zSig m]).length : ℕ) : ℚ) = (l.length : ℚ) + 1 := by
    have h : (l ++ [zSig m]).length = l.length + 1 := by simp
    rw [h]
    push_cast
    ring
  rw [hsum, hlen]
  have h0 : (0 : ℚ) ≤ (l.map (·.confidence)).sum := by
    apply List.sum_nonneg
    intro x hx
    obtain ⟨s, hs, rfl⟩ := List.mem_map.mp hx
    exact hpos s hs
  have hn : (0 : ℚ) < (l.length : ℚ) := by
    have : 0 < l.length := List.length_pos.mpr hne
    exact_mod_cast this
  rw [div_eq_mul_inv, div_eq_mul_inv]
  refine mul_le_mul_of_nonneg_left ?_ h0
  refine inv_anti₀ hn ?_
  linarith

/-- If the appended batch is preliminarily active, so was the original
one: the strong indicators are unchanged and the mean only went down. -/
theorem prelim_fst_append_zSig (l : List Signal) (m : String)
    (hne : l ≠ []) (hpos : ∀ s ∈ l, 0 ≤ s.confidence)
    (h : (prelimVerdict (l ++ [zSig m])).1 = true) :
    (prelimVerdict l).1 = true := by
  rw [prelimVerdict_fst] at h ⊢
  rw [filter_strong_append_zSig] at h
  cases he : (l.filter isStrong).isEmpty with
  | false => simp [he]
  | true =>
      rw [he] at h
      simp only [Bool.not_true, Bool.false_or, decide_eq_true_eq] at h ⊢
      exact lt_of_lt_of_le h (avgConfidence_append_zSig l m hne hpos)

/-- C6: appending one fully degraded signal (confidence 0, no provider,
no public IP) to a batch whose fused verdict is inactive yields a fused
verdict that is still inactive, whatever the stored status and clock of
either cycle are. -/
theorem C6_degraded_signal_keeps_verdict_inactive (results : List Signal)
    (m : String) (prev prev' : Option VPNStatus) (now now' : ℚ)
    (hpos : ∀ s ∈ results, 0 ≤ s.confidence) (hne : results ≠ [])
    (hoff : (combineDetectionResults results prev now).is_active = false) :
    (combineDetectionResults (results ++ [zSig m]) prev' now').is_active
      = false := by
  have hform : ∀ (L : List Signal) (p : Option VPNStatus) (n : ℚ),
      (combineDetectionResults L p n).is_active
        = (passB L (extractPublicIp L)
            (passA L (extractPublicIp L) (prelimVerdict L))).1 :=
    fun _ _ _ => rfl
  rw [hform, passB_fst, passA_fst] at hoff ⊢
  rw [extractPublicIp_append_zSig, any_ip_provider_append_zSig,
    any_strong_evidence_append_zSig, any_interface_append_zSig]
  cases hp : (prelimVerdict (results ++ [zSig m])).1 with
  | false => simp
  | true =>
      rw [prelim_fst_append_zSig results m hne hpos hp] at hoff
      exact hoff

/-- Witness for C6: a singleton degraded batch fuses inactive and stays
inactive after appending another degraded signal. -/
theorem C6_degraded_signal_keeps_verdict_inactive_witness :
    (∀ s ∈ [zeroProcessSignal], 0 ≤ s.confidence)
    ∧ [zeroProcessSignal] ≠ []
    ∧ (combineDetectionResults [zeroProcessSignal] none 0).is_active = false
    ∧ (combineDetectionResults ([zeroProcessSignal] ++ [zSig "dns"])
        none 0).is_active = false := by
  have h1 : ∀ s ∈ [zeroProcessSignal], 0 ≤ s.confidence := by
    with_unfolding_all decide
  have h2 : [zeroProcessSignal] ≠ [] := by
    with_unfolding_all decide
  have h3 : (combineDetectionResults [zeroProcessSignal] none 0).is_active
      = false := by
    with_unfolding_all decide
  exact ⟨h1, h2, h3,
    C6_degraded_signal_keeps_verdict_inactive [zeroProcessSignal] "dns"
      none none 0 0 h1 h2 h3⟩

end UptimeMonitor
